import Mathlib

/-!
Shallow embedding of the mcp-clickhouse-dc repository core:
configuration resolution (`mcp_clickhouse/mcp_env.py`), request-context
extraction (`mcp_clickhouse/context_manager.py`), and the tenant-scoped
tool wrappers (`mcp_clickhouse/mcp_server.py`, modelled from the spec
since that file's source is not available; its tests are).

Python's process environment `os.environ` is modelled as a partial map
from variable names to string values.  Python exceptions raised by the
configuration code (`KeyError` from `os.environ[k]`, `ValueError` from
`int(...)` and from required-variable validation) are modelled by an
`Except PyErr` result.
-/

/-- The process environment: a partial map from variable names to values. -/
abbrev Env := String → Option String

/-- Build an environment from an association list (first binding wins). -/
def envOf (l : List (String × String)) : Env :=
  fun k => (l.find? (fun p => p.1 == k)).map (fun p => p.2)

/-- Model of Python `str.lower()`: per-character lowercasing.  (Python's
`lower` is full Unicode; the configuration comparisons only distinguish
case variants of the ASCII string "true", on which per-character ASCII
lowercasing agrees with it.) -/
def pyLower (s : String) : String :=
  ⟨s.data.map Char.toLower⟩

/-- Python exceptions that the configuration code can raise. -/
inductive PyErr where
  | keyError (key : String)
  | valueError (msg : String)
deriving DecidableEq

/-- `os.getenv(key, dflt)`: the value if set, the default otherwise. -/
def getenvD (env : Env) (key dflt : String) : String :=
  (env key).getD dflt

/-- Whitespace characters Python strips around an integer literal. -/
def pySpace (c : Char) : Bool :=
  c == ' ' || c == '\t' || c == '\n' || c == '\r' || c == '\x0b' || c == '\x0c'

/-- Model of Python `int(s)` in base 10: strips surrounding whitespace,
accepts an optional sign followed by a non-empty digit string, raises
`ValueError` otherwise.  (Python's underscore digit-grouping feature is
not modelled; no configuration value in scope uses it.) -/
def pyInt (s : String) : Except PyErr Int :=
  let t := ((s.data.dropWhile pySpace).reverse.dropWhile pySpace).reverse
  let (neg, ds) :=
    match t with
    | '-' :: rest => (true, rest)
    | '+' :: rest => (false, rest)
    | _ => (false, t)
  if !ds.isEmpty && ds.all (fun c => c.isDigit) then
    let n : Nat := ds.foldl (fun a c => a * 10 + (c.toNat - 48)) 0
    .ok (if neg then -(n : Int) else (n : Int))
  else .error (.valueError ("invalid literal for int() with base 10: " ++ s))

namespace ClickHouseConfig

/-- `os.getenv("CLICKHOUSE_ENABLED", "true").lower() == "true"`. -/
def enabled (env : Env) : Bool :=
  pyLower (getenvD env "CLICKHOUSE_ENABLED" "true") == "true"

/-- `os.environ["CLICKHOUSE_HOST"]` (raises `KeyError` when unset). -/
def host (env : Env) : Except PyErr String :=
  match env "CLICKHOUSE_HOST" with
  | some v => .ok v
  | none => .error (.keyError "CLICKHOUSE_HOST")

/-- `os.environ["CLICKHOUSE_USER"]` (raises `KeyError` when unset). -/
def username (env : Env) : Except PyErr String :=
  match env "CLICKHOUSE_USER" with
  | some v => .ok v
  | none => .error (.keyError "CLICKHOUSE_USER")

/-- `os.getenv("CLICKHOUSE_SECURE", "true").lower() == "true"`. -/
def secure (env : Env) : Bool :=
  pyLower (getenvD env "CLICKHOUSE_SECURE" "true") == "true"

/-- `os.getenv("CLICKHOUSE_VERIFY", "true").lower() == "true"`. -/
def verify (env : Env) : Bool :=
  pyLower (getenvD env "CLICKHOUSE_VERIFY" "true") == "true"

/-- The `port` property: `int(os.environ["CLICKHOUSE_PORT"])` when that
variable is set, otherwise 8443 if `secure` else 8123. -/
def port (env : Env) : Except PyErr Int :=
  match env "CLICKHOUSE_PORT" with
  | some s => pyInt s
  | none => .ok (if secure env then 8443 else 8123)

/-- `int(os.getenv("CLICKHOUSE_CONNECT_TIMEOUT", "30"))`. -/
def connect_timeout (env : Env) : Except PyErr Int :=
  pyInt (getenvD env "CLICKHOUSE_CONNECT_TIMEOUT" "30")

/-- `int(os.getenv("CLICKHOUSE_SEND_RECEIVE_TIMEOUT", "300"))`. -/
def send_receive_timeout (env : Env) : Except PyErr Int :=
  pyInt (getenvD env "CLICKHOUSE_SEND_RECEIVE_TIMEOUT" "300")

/-- The variables `_validate_required_vars` checks. -/
def requiredVars : List String :=
  ["CLICKHOUSE_HOST", "CLICKHOUSE_USER", "CLICKHOUSE_PASSWORD"]

/-- The `missing_vars` list built by `_validate_required_vars`: the
required variables not present in the environment, in order. -/
def missingVars (env : Env) : List String :=
  requiredVars.filter (fun v => (env v).isNone)

/-- `_validate_required_vars`: raises a single `ValueError` naming every
missing required variable when any is missing. -/
def validate_required_vars (env : Env) : Except PyErr Unit :=
  match missingVars env with
  | [] => .ok ()
  | v :: vs =>
      .error (.valueError ("Missing required environment variables: "
        ++ String.intercalate ", " (v :: vs)))

/-- `ClickHouseConfig.__init__`: validation runs only when the backend is
enabled.  The object itself stores no fields — every property re-reads
the environment — so a constructed instance is modelled as `Unit`. -/
def init (env : Env) : Except PyErr Unit :=
  if enabled env then validate_required_vars env else .ok ()

end ClickHouseConfig

namespace ChDBConfig

/-- `os.getenv("CHDB_ENABLED", "false").lower() == "true"`. -/
def enabled (env : Env) : Bool :=
  pyLower (getenvD env "CHDB_ENABLED" "false") == "true"

end ChDBConfig

namespace MCPServerConfig

/-- `int(os.getenv("CLICKHOUSE_MCP_BIND_PORT", "8000"))`. -/
def bind_port (env : Env) : Except PyErr Int :=
  pyInt (getenvD env "CLICKHOUSE_MCP_BIND_PORT" "8000")

/-- `int(os.getenv("CLICKHOUSE_MCP_QUERY_TIMEOUT", "30"))`. -/
def query_timeout (env : Env) : Except PyErr Int :=
  pyInt (getenvD env "CLICKHOUSE_MCP_QUERY_TIMEOUT" "30")

end MCPServerConfig

/-- One step of the `get_config` singleton protocol, with the global
`_CONFIG_INSTANCE` cell passed explicitly.  A constructed instance is
`Unit` (the object stores no fields).  When the cell is empty the
constructor runs (and may raise); when it is filled the instance is
returned unchanged with no validation. -/
def get_config (env : Env) (inst : Option Unit) :
    Except PyErr (Unit × Option Unit) :=
  match inst with
  | some u => .ok (u, some u)
  | none =>
      match ClickHouseConfig.init env with
      | .ok u => .ok (u, some u)
      | .error e => .error e

/-! ## Context manager (`context_manager.py`) -/

/-- The request metadata object.  `getattr(meta, f, None)` on a field
that may be absent is modelled by an `Option` field. -/
structure RequestMeta where
  user_name : Option String
  company_id : Option String
deriving DecidableEq

/-- The nested request-context object; `meta` may be `None`. -/
structure RequestContext where
  meta : Option RequestMeta
deriving DecidableEq

/-- The FastMCP `Context` envelope; `request_context` may be `None`.
The envelope itself may also be `None`, modelled as `Option Context`
at use sites. -/
structure Context where
  request_context : Option RequestContext
deriving DecidableEq

/-- `UserContext` from `context_manager.py`: two optional string fields. -/
structure UserContext where
  user_name : Option String
  company_id : Option String
deriving DecidableEq

/-- `get_user_context`: returns `None` when the context, its
`request_context`, or its `meta` is absent; otherwise reads the two
metadata fields independently with `getattr(_, _, None)`. -/
def get_user_context : Option Context → Option UserContext
  | none => none
  | some c =>
      match c.request_context with
      | none => none
      | some rc =>
          match rc.meta with
          | none => none
          | some m => some { user_name := m.user_name, company_id := m.company_id }

/-! ## Tenant-scoped tool wrappers (`mcp_server.py`)

The file `mcp_server.py` is not among the available sources; only its
tests (`tests/test_context.py`) and the spec describe it.  The
definitions below are therefore modelled from the spec (section 4.2
algorithm, section 6 tool surface, section 7 error taxonomy), cross
checked against the behaviour the tests pin down. -/

/-- A backend cell value, as far as the tests exercise it. -/
inductive PyVal where
  | int (n : Int)
  | str (s : String)
  | pyNone
deriving DecidableEq

/-- Error kinds of the spec's per-call error taxonomy (section 7). -/
inductive ErrorKind where
  | missingTenantContext
  | tenantScopeFailure
  | queryExecutionFailure
deriving DecidableEq

/-- A domain error surfaced to the caller: its taxonomy kind and its
message text. -/
structure ToolError where
  kind : ErrorKind
  message : String
deriving DecidableEq

/-- The backend `query` result shape: `{column_names, result_rows}`. -/
structure QueryResult where
  column_names : List String
  result_rows : List (List PyVal)
deriving DecidableEq

/-- The opaque backend connection: `command(sql)` and `query(sql)`, each
of which may raise (the raised exception's text is the `String`). -/
structure Client where
  command : String → Except String PyVal
  query : String → Except String QueryResult

/-- An operation issued on the backend connection, recorded in order. -/
inductive Event where
  | command (sql : String)
  | query (sql : String)
deriving DecidableEq

/-- The normalized query output `{columns, rows}`. -/
structure QueryOutput where
  columns : List String
  rows : List (List PyVal)
deriving DecidableEq

/-- The normalized table-listing output
`{tables, next_page_token, total_tables}`. -/
structure TablesPage where
  tables : List (List PyVal)
  next_page_token : Option String
  total_tables : Nat
deriving DecidableEq

/-- Modelled from the spec: step 2 of the wrapper algorithm.  The
tenant identifier of a call: the `company_id` of the resolved user
context, accepted only when present and non-empty (Python truthiness of
the string). -/
def tenantOf (ctx : Option Context) : Option String :=
  match get_user_context ctx with
  | none => none
  | some uc =>
      match uc.company_id with
      | none => none
      | some cid => if cid = "" then none else some cid

/-- Modelled from the spec: the role-setting command of step 4, the
tenant identifier applied verbatim (`SET role=acme_corp` in the tests). -/
def roleCommand (tenant : String) : String :=
  "SET role=" ++ tenant

/-- Modelled from the spec: `execute_query(query, ctx)` from
`mcp_server.py`.  Steps 2 and 4-7 of the wrapper algorithm: reject a
missing/empty tenant with `MissingTenantContext` (message
"company_id is required"); issue the role command, mapping a failure to
`TenantScopeFailure` ("Failed to set role: <cause>") without running the
query; run the query and normalize to `{columns, rows}`, wrapping a
query failure as `QueryExecutionFailure`.  The second component records
the operations issued on the connection, in order. -/
def execute_query (sql : String) (ctx : Option Context) (client : Client) :
    Except ToolError QueryOutput × List Event :=
  match tenantOf ctx with
  | none => (.error ⟨.missingTenantContext, "company_id is required"⟩, [])
  | some t =>
      match client.command (roleCommand t) with
      | .error e =>
          (.error ⟨.tenantScopeFailure, "Failed to set role: " ++ e⟩,
            [.command (roleCommand t)])
      | .ok _ =>
          match client.query sql with
          | .error e =>
              (.error ⟨.queryExecutionFailure, "Query execution failed: " ++ e⟩,
                [.command (roleCommand t), .query sql])
          | .ok r =>
              (.ok ⟨r.column_names, r.result_rows⟩,
                [.command (roleCommand t), .query sql])

/-- Modelled from the spec: `list_databases(ctx)` from `mcp_server.py`.
Same wrapper steps; the data operation is the backend command
`SHOW DATABASES` (per the tests), whose string result is split into one
database name per line. -/
def list_databases (ctx : Option Context) (client : Client) :
    Except ToolError (List String) × List Event :=
  match tenantOf ctx with
  | none => (.error ⟨.missingTenantContext, "company_id is required"⟩, [])
  | some t =>
      match client.command (roleCommand t) with
      | .error e =>
          (.error ⟨.tenantScopeFailure, "Failed to set role: " ++ e⟩,
            [.command (roleCommand t)])
      | .ok v =>
          (.ok (match v with | .str s => s.splitOn "\n" | _ => []),
            [.command (roleCommand t), .command "SHOW DATABASES"])

/-- Modelled from the spec: the system-table lookup text used by
`list_tables` for a database.  The exact SQL is not pinned down by the
spec or tests; only that it is a query issued after role-setting. -/
def list_tables_sql (database : String) : String :=
  "SELECT * FROM system.tables WHERE database = " ++ database

/-- Modelled from the spec: `list_tables(database, ctx)` from
`mcp_server.py`.  Same wrapper steps; the data operation is a
system-table query, normalized to `{tables, next_page_token,
total_tables}` (pagination helpers are out of scope and modelled as the
identity page). -/
def list_tables (database : String) (ctx : Option Context) (client : Client) :
    Except ToolError TablesPage × List Event :=
  match tenantOf ctx with
  | none => (.error ⟨.missingTenantContext, "company_id is required"⟩, [])
  | some t =>
      match client.command (roleCommand t) with
      | .error e =>
          (.error ⟨.tenantScopeFailure, "Failed to set role: " ++ e⟩,
            [.command (roleCommand t)])
      | .ok _ =>
          match client.query (list_tables_sql database) with
          | .error e =>
              (.error ⟨.queryExecutionFailure, "Query execution failed: " ++ e⟩,
                [.command (roleCommand t), .query (list_tables_sql database)])
          | .ok r =>
              (.ok ⟨r.result_rows, none, r.result_rows.length⟩,
                [.command (roleCommand t), .query (list_tables_sql database)])

/-! ## Concrete inputs used by witnesses and counterexamples -/

/-- Environment with only the host set: user and password are missing. -/
def envMissingUP : Env := envOf [("CLICKHOUSE_HOST", "h")]

/-- Environment with an explicit port override. -/
def envPortSet : Env :=
  envOf [("CLICKHOUSE_HOST", "h"), ("CLICKHOUSE_USER", "u"),
    ("CLICKHOUSE_PASSWORD", "p"), ("CLICKHOUSE_PORT", "9000")]

/-- Environment with the secure flag explicitly disabled. -/
def envInsecure : Env :=
  envOf [("CLICKHOUSE_HOST", "h"), ("CLICKHOUSE_USER", "u"),
    ("CLICKHOUSE_PASSWORD", "p"), ("CLICKHOUSE_SECURE", "false")]

/-- Environment with boolean-flag variables set to values other than a
case variant of "true". -/
def envFlags : Env :=
  envOf [("CLICKHOUSE_ENABLED", "1"), ("CLICKHOUSE_SECURE", "yes"),
    ("CLICKHOUSE_VERIFY", "True ")]

/-- The empty environment: every variable unset. -/
def envEmpty : Env := envOf []

/-- A context whose envelope carries no nested request-context. -/
def ctxNoRC : Context := { request_context := none }

/-- A context whose request-context carries no metadata object. -/
def ctxNoMeta : Context := { request_context := some { meta := none } }

/-- Metadata carrying only a user name, no tenant identifier. -/
def metaJohnOnly : RequestMeta :=
  { user_name := some "john_doe", company_id := none }

/-- Metadata with user "john_doe" and tenant "acme_corp". -/
def metaJohn : RequestMeta :=
  { user_name := some "john_doe", company_id := some "acme_corp" }

/-- A full context with user "john_doe" and tenant "acme_corp". -/
def ctxJohn : Context :=
  { request_context := some { meta := some metaJohn } }

/-! ## Claim theorems: context resolver and configuration -/

/-- Claim C5: `get_user_context` is total and never raises.  When the
context, its `request_context`, or its `meta` is absent it returns
`none`; when metadata is present it returns a `UserContext` whose two
fields are read independently, a missing field yielding `none` for that
field rather than a failure.  (Totality and absence of exceptions are
by construction: the embedding is a total Lean function, faithful to
the source's truthiness guards and `getattr(_, _, None)` reads.) -/
theorem c5_get_user_context_tolerant :
    get_user_context none = none ∧
    (∀ c : Context, c.request_context = none → get_user_context (some c) = none) ∧
    (∀ rc : RequestContext, rc.meta = none →
      get_user_context (some { request_context := some rc }) = none) ∧
    (∀ m : RequestMeta,
      get_user_context (some { request_context := some { meta := some m } }) =
        some { user_name := m.user_name, company_id := m.company_id }) := by
  refine ⟨rfl, ?_, ?_, fun m => rfl⟩
  · intro c h; simp [get_user_context, h]
  · intro rc h; simp [get_user_context, h]

/-- Witness for C5 at concrete contexts: absent `request_context`,
absent `meta`, and metadata with only `user_name` present. -/
theorem c5_get_user_context_tolerant_witness :
    get_user_context (some ctxNoRC) = none ∧
    get_user_context (some ctxNoMeta) = none ∧
    get_user_context
        (some { request_context := some { meta := some metaJohnOnly } }) =
      some { user_name := some "john_doe", company_id := none } :=
  ⟨c5_get_user_context_tolerant.2.1 ctxNoRC rfl,
   c5_get_user_context_tolerant.2.2.1 { meta := none } rfl,
   c5_get_user_context_tolerant.2.2.2 metaJohnOnly⟩

/-- Claim C8: when the backend is enabled and at least one of
`CLICKHOUSE_HOST`, `CLICKHOUSE_USER`, `CLICKHOUSE_PASSWORD` is unset,
construction raises a single `ValueError` whose message lists the
`missing_vars`, and that list contains exactly the required variables
that are unset (all of them, not merely the first); when the backend is
disabled, construction raises nothing. -/
theorem c8_validation_enumerates_missing (env : Env) :
    (ClickHouseConfig.enabled env = false → ClickHouseConfig.init env = .ok ()) ∧
    (ClickHouseConfig.enabled env = true →
      (env "CLICKHOUSE_HOST" = none ∨ env "CLICKHOUSE_USER" = none ∨
        env "CLICKHOUSE_PASSWORD" = none) →
      ClickHouseConfig.init env =
        .error (.valueError ("Missing required environment variables: "
          ++ String.intercalate ", " (ClickHouseConfig.missingVars env))) ∧
      (∀ v, v ∈ ClickHouseConfig.missingVars env ↔
        v ∈ ClickHouseConfig.requiredVars ∧ env v = none)) := by
  constructor
  · intro h; simp [ClickHouseConfig.init, h]
  · intro hen hmiss
    have hmem : ∀ v, v ∈ ClickHouseConfig.missingVars env ↔
        v ∈ ClickHouseConfig.requiredVars ∧ env v = none := by
      intro v
      simp [ClickHouseConfig.missingVars, List.mem_filter,
        Option.isNone_iff_eq_none]
    have hne : ClickHouseConfig.missingVars env ≠ [] := by
      intro hnil
      rcases hmiss with h | h | h
      · have := (hmem "CLICKHOUSE_HOST").2
          ⟨by simp [ClickHouseConfig.requiredVars], h⟩
        rw [hnil] at this; exact absurd this (List.not_mem_nil _)
      · have := (hmem "CLICKHOUSE_USER").2
          ⟨by simp [ClickHouseConfig.requiredVars], h⟩
        rw [hnil] at this; exact absurd this (List.not_mem_nil _)
      · have := (hmem "CLICKHOUSE_PASSWORD").2
          ⟨by simp [ClickHouseConfig.requiredVars], h⟩
        rw [hnil] at this; exact absurd this (List.not_mem_nil _)
    refine ⟨?_, hmem⟩
    rcases hl : ClickHouseConfig.missingVars env with _ | ⟨v, vs⟩
    · exact absurd hl hne
    · simp [ClickHouseConfig.init, hen, ClickHouseConfig.validate_required_vars, hl]

/-- Witness for C8: host set, user and password unset, backend enabled
by default; the single error names both missing variables. -/
theorem c8_validation_enumerates_missing_witness :
    ClickHouseConfig.init envMissingUP =
      .error (.valueError ("Missing required environment variables: "
        ++ String.intercalate ", " (ClickHouseConfig.missingVars envMissingUP))) ∧
    ("CLICKHOUSE_USER" ∈ ClickHouseConfig.missingVars envMissingUP ∧
     "CLICKHOUSE_PASSWORD" ∈ ClickHouseConfig.missingVars envMissingUP) := by
  have h := (c8_validation_enumerates_missing envMissingUP).2 (by decide)
    (Or.inr (Or.inl rfl))
  exact ⟨h.1,
    (h.2 "CLICKHOUSE_USER").2 ⟨by decide, rfl⟩,
    (h.2 "CLICKHOUSE_PASSWORD").2 ⟨by decide, rfl⟩⟩

/-- Claim C9: the resolved port is `int` of `CLICKHOUSE_PORT` whenever
that variable is set (including that call's failure when the value is
not an integer literal); otherwise it is the secure default 8443 when
`CLICKHOUSE_SECURE` is unset or lowercases to "true", and the insecure
default 8123 when `CLICKHOUSE_SECURE=false`. -/
theorem c9_port_defaults (env : Env) :
    (∀ s, env "CLICKHOUSE_PORT" = some s → ClickHouseConfig.port env = pyInt s) ∧
    (env "CLICKHOUSE_PORT" = none → env "CLICKHOUSE_SECURE" = none →
      ClickHouseConfig.port env = .ok 8443) ∧
    (∀ v, env "CLICKHOUSE_PORT" = none → env "CLICKHOUSE_SECURE" = some v →
      pyLower v = "true" → ClickHouseConfig.port env = .ok 8443) ∧
    (env "CLICKHOUSE_PORT" = none → env "CLICKHOUSE_SECURE" = some "false" →
      ClickHouseConfig.port env = .ok 8123) := by
  refine ⟨?_, ?_, ?_, ?_⟩
  · intro s h; simp [ClickHouseConfig.port, h]
  · intro hp hs
    have hsec : ClickHouseConfig.secure env = true := by
      simp only [ClickHouseConfig.secure, getenvD, hs, Option.getD_none]; decide
    simp [ClickHouseConfig.port, hp, hsec]
  · intro v hp hs hv
    have hsec : ClickHouseConfig.secure env = true := by
      simp only [ClickHouseConfig.secure, getenvD, hs, Option.getD_some, hv]
      decide
    simp [ClickHouseConfig.port, hp, hsec]
  · intro hp hs
    have hsec : ClickHouseConfig.secure env = false := by
      simp only [ClickHouseConfig.secure, getenvD, hs, Option.getD_some]; decide
    simp [ClickHouseConfig.port, hp, hsec]

/-- Witness for C9 at concrete environments: explicit override, both
variables unset, and the secure flag disabled. -/
theorem c9_port_defaults_witness :
    ClickHouseConfig.port envPortSet = pyInt "9000" ∧
    ClickHouseConfig.port envEmpty = .ok 8443 ∧
    ClickHouseConfig.port envInsecure = .ok 8123 :=
  ⟨(c9_port_defaults envPortSet).1 "9000" rfl,
   (c9_port_defaults envEmpty).2.1 rfl rfl,
   (c9_port_defaults envInsecure).2.2.2 rfl rfl⟩

/-- Claim C10: each boolean flag is true exactly when the set value,
lowercased, equals "true"; when unset, `CLICKHOUSE_ENABLED`,
`CLICKHOUSE_SECURE` and `CLICKHOUSE_VERIFY` default to true and
`CHDB_ENABLED` defaults to false. -/
theorem c10_boolean_flag_parsing (env : Env) :
    (∀ v, env "CLICKHOUSE_ENABLED" = some v →
      ClickHouseConfig.enabled env = (pyLower v == "true")) ∧
    (env "CLICKHOUSE_ENABLED" = none → ClickHouseConfig.enabled env = true) ∧
    (∀ v, env "CLICKHOUSE_SECURE" = some v →
      ClickHouseConfig.secure env = (pyLower v == "true")) ∧
    (env "CLICKHOUSE_SECURE" = none → ClickHouseConfig.secure env = true) ∧
    (∀ v, env "CLICKHOUSE_VERIFY" = some v →
      ClickHouseConfig.verify env = (pyLower v == "true")) ∧
    (env "CLICKHOUSE_VERIFY" = none → ClickHouseConfig.verify env = true) ∧
    (∀ v, env "CHDB_ENABLED" = some v →
      ChDBConfig.enabled env = (pyLower v == "true")) ∧
    (env "CHDB_ENABLED" = none → ChDBConfig.enabled env = false) := by
  refine ⟨?_, ?_, ?_, ?_, ?_, ?_, ?_, ?_⟩
  · intro v hv
    simp only [ClickHouseConfig.enabled, getenvD, hv, Option.getD_some]
  · intro h
    simp only [ClickHouseConfig.enabled, getenvD, h, Option.getD_none]; decide
  · intro v hv
    simp only [ClickHouseConfig.secure, getenvD, hv, Option.getD_some]
  · intro h
    simp only [ClickHouseConfig.secure, getenvD, h, Option.getD_none]; decide
  · intro v hv
    simp only [ClickHouseConfig.verify, getenvD, hv, Option.getD_some]
  · intro h
    simp only [ClickHouseConfig.verify, getenvD, h, Option.getD_none]; decide
  · intro v hv
    simp only [ChDBConfig.enabled, getenvD, hv, Option.getD_some]
  · intro h
    simp only [ChDBConfig.enabled, getenvD, h, Option.getD_none]; decide

/-- Witness for C10: values "1", "yes" and "True " (trailing space) all
parse as false; unset `CHDB_ENABLED` defaults to false. -/
theorem c10_boolean_flag_parsing_witness :
    ClickHouseConfig.enabled envFlags = (pyLower "1" == "true") ∧
    ClickHouseConfig.secure envFlags = (pyLower "yes" == "true") ∧
    ClickHouseConfig.verify envFlags = (pyLower "True " == "true") ∧
    ChDBConfig.enabled envFlags = false ∧
    (pyLower "1" == "true") = false ∧
    (pyLower "yes" == "true") = false ∧
    (pyLower "True " == "true") = false :=
  ⟨(c10_boolean_flag_parsing envFlags).1 "1" rfl,
   (c10_boolean_flag_parsing envFlags).2.2.1 "yes" rfl,
   (c10_boolean_flag_parsing envFlags).2.2.2.2.1 "True " rfl,
   (c10_boolean_flag_parsing envFlags).2.2.2.2.2.2.2 rfl,
   by decide, by decide, by decide⟩

/-- Environment whose host is "host-a" (user and password set). -/
def envHostA : Env :=
  envOf [("CLICKHOUSE_HOST", "host-a"), ("CLICKHOUSE_USER", "u"),
    ("CLICKHOUSE_PASSWORD", "p")]

/-- `envHostA` with the host variable changed to "host-b". -/
def envHostB : Env :=
  envOf [("CLICKHOUSE_HOST", "host-b"), ("CLICKHOUSE_USER", "u"),
    ("CLICKHOUSE_PASSWORD", "p")]

/-- Another environment whose host is also "host-a". -/
def envHostA2 : Env := envOf [("CLICKHOUSE_HOST", "host-a")]

/-- Environment with a non-integer connect timeout. -/
def envBadTimeout : Env := envOf [("CLICKHOUSE_CONNECT_TIMEOUT", "abc")]

/-- Counterexample to claim C6 as stated: with the singleton already
constructed (under `envHostA`), two reads of the `host` accessor return
different values once the environment variable changes between the
reads — the accessors re-read the environment on every access; only the
object construction and its validation happen once. -/
theorem c6_counterexample_host_not_frozen :
    get_config envHostA none = .ok ((), some ()) ∧
    ClickHouseConfig.host envHostA = .ok "host-a" ∧
    ClickHouseConfig.host envHostB = .ok "host-b" ∧
    ClickHouseConfig.host envHostA ≠ ClickHouseConfig.host envHostB := by
  refine ⟨rfl, rfl, rfl, ?_⟩
  intro h
  have h2 : (Except.ok "host-a" : Except PyErr String) = Except.ok "host-b" := h
  exact absurd (Except.ok.inj h2) (by decide)

/-- Claim C6 as amended: the configuration singleton is constructed at
most once per process — once the instance cell is filled, `get_config`
returns it unchanged with no re-validation, whatever the current
environment — but accessor values are recomputed from the environment
on each access, so two reads of the same accessor agree exactly when
the underlying variable is unchanged between the reads. -/
theorem c6_amended_singleton_and_reads :
    (∀ env : Env, get_config env (some ()) = .ok ((), some ())) ∧
    (∀ env env' : Env, env "CLICKHOUSE_HOST" = env' "CLICKHOUSE_HOST" →
      ClickHouseConfig.host env = ClickHouseConfig.host env') := by
  constructor
  · intro env; rfl
  · intro env env' h; simp [ClickHouseConfig.host, h]

/-- Witness for the amended C6: the filled singleton cell is returned
unchanged under an arbitrary concrete environment, and two different
environments that agree on the host variable give equal host reads. -/
theorem c6_amended_singleton_and_reads_witness :
    get_config envHostB (some ()) = .ok ((), some ()) ∧
    ClickHouseConfig.host envHostA = ClickHouseConfig.host envHostA2 :=
  ⟨c6_amended_singleton_and_reads.1 envHostB,
   c6_amended_singleton_and_reads.2 envHostA envHostA2 rfl⟩

/-- Counterexample to claim C7 as stated: with
`CLICKHOUSE_CONNECT_TIMEOUT=abc` the `connect_timeout` accessor does
not resolve to a value — `int("abc")` raises `ValueError` — so the
computed accessors do not succeed for every environment state. -/
theorem c7_counterexample_bad_int :
    ClickHouseConfig.connect_timeout envBadTimeout =
      .error (.valueError "invalid literal for int() with base 10: abc") ∧
    (ClickHouseConfig.connect_timeout envBadTimeout).toOption = none := by
  exact ⟨rfl, rfl⟩

/-- Claim C7 as amended: each computed accessor (port, connect timeout,
send/receive timeout, bind port, query timeout) resolves to its
documented default when the corresponding variable is unset, and to the
parsed value when the variable is set to a string `int` accepts; it can
fail only when a set value is not a valid integer literal. -/
theorem c7_amended_accessor_defaults (env : Env) :
    (env "CLICKHOUSE_PORT" = none →
      ClickHouseConfig.port env =
        .ok (if ClickHouseConfig.secure env then 8443 else 8123)) ∧
    (env "CLICKHOUSE_CONNECT_TIMEOUT" = none →
      ClickHouseConfig.connect_timeout env = .ok 30) ∧
    (env "CLICKHOUSE_SEND_RECEIVE_TIMEOUT" = none →
      ClickHouseConfig.send_receive_timeout env = .ok 300) ∧
    (env "CLICKHOUSE_MCP_BIND_PORT" = none →
      MCPServerConfig.bind_port env = .ok 8000) ∧
    (env "CLICKHOUSE_MCP_QUERY_TIMEOUT" = none →
      MCPServerConfig.query_timeout env = .ok 30) ∧
    (∀ s n, env "CLICKHOUSE_PORT" = some s → pyInt s = .ok n →
      ClickHouseConfig.port env = .ok n) ∧
    (∀ s n, env "CLICKHOUSE_CONNECT_TIMEOUT" = some s → pyInt s = .ok n →
      ClickHouseConfig.connect_timeout env = .ok n) ∧
    (∀ s n, env "CLICKHOUSE_SEND_RECEIVE_TIMEOUT" = some s → pyInt s = .ok n →
      ClickHouseConfig.send_receive_timeout env = .ok n) ∧
    (∀ s n, env "CLICKHOUSE_MCP_BIND_PORT" = some s → pyInt s = .ok n →
      MCPServerConfig.bind_port env = .ok n) ∧
    (∀ s n, env "CLICKHOUSE_MCP_QUERY_TIMEOUT" = some s → pyInt s = .ok n →
      MCPServerConfig.query_timeout env = .ok n) := by
  refine ⟨?_, ?_, ?_, ?_, ?_, ?_, ?_, ?_, ?_, ?_⟩
  · intro h; simp [ClickHouseConfig.port, h]
  · intro h
    simp only [ClickHouseConfig.connect_timeout, getenvD, h, Option.getD_none]
    rfl
  · intro h
    simp only [ClickHouseConfig.send_receive_timeout, getenvD, h, Option.getD_none]
    rfl
  · intro h
    simp only [MCPServerConfig.bind_port, getenvD, h, Option.getD_none]
    rfl
  · intro h
    simp only [MCPServerConfig.query_timeout, getenvD, h, Option.getD_none]
    rfl
  · intro s n hs hn; simp [ClickHouseConfig.port, hs, hn]
  · intro s n hs hn
    simp only [ClickHouseConfig.connect_timeout, getenvD, hs, Option.getD_some]
    exact hn
  · intro s n hs hn
    simp only [ClickHouseConfig.send_receive_timeout, getenvD, hs, Option.getD_some]
    exact hn
  · intro s n hs hn
    simp only [MCPServerConfig.bind_port, getenvD, hs, Option.getD_some]
    exact hn
  · intro s n hs hn
    simp only [MCPServerConfig.query_timeout, getenvD, hs, Option.getD_some]
    exact hn

/-- Witness for the amended C7: in the empty environment every computed
accessor resolves to its documented default, and a set integer value is
honoured. -/
theorem c7_amended_accessor_defaults_witness :
    ClickHouseConfig.port envEmpty = .ok 8443 ∧
    ClickHouseConfig.connect_timeout envEmpty = .ok 30 ∧
    ClickHouseConfig.send_receive_timeout envEmpty = .ok 300 ∧
    MCPServerConfig.bind_port envEmpty = .ok 8000 ∧
    MCPServerConfig.query_timeout envEmpty = .ok 30 ∧
    ClickHouseConfig.port envPortSet = .ok 9000 := by
  have h := c7_amended_accessor_defaults envEmpty
  have hp := c7_amended_accessor_defaults envPortSet
  exact ⟨by simpa using h.1 rfl, h.2.1 rfl, h.2.2.1 rfl, h.2.2.2.1 rfl,
    h.2.2.2.2.1 rfl, hp.2.2.2.2.2.1 "9000" 9000 rfl (by rfl)⟩

/-- A backend client whose commands succeed and whose queries return
the single row the scenario tests mock (`column_names` of "col1",
`result_rows` of one row holding 1). -/
def clientOk : Client :=
  { command := fun _ => .ok .pyNone,
    query := fun _ => .ok { column_names := ["col1"], result_rows := [[.int 1]] } }

/-- A backend client whose commands all fail with "Role not found". -/
def clientRoleFail : Client :=
  { command := fun _ => .error "Role not found",
    query := fun _ => .ok { column_names := [], result_rows := [] } }

/-- Metadata whose tenant identifier is "invalid_role". -/
def metaInvalid : RequestMeta :=
  { user_name := some "john_doe", company_id := some "invalid_role" }

/-- A full context whose tenant identifier is "invalid_role". -/
def ctxInvalid : Context :=
  { request_context := some { meta := some metaInvalid } }

/-! ## Claim theorems: tenant-scoped tool wrappers -/

/-- Claim C1: every data-accessing tool call (`execute_query`,
`list_databases`, `list_tables`) invoked with an envelope yielding no
tenant identifier — context absent, metadata absent, or `company_id`
absent/empty — fails with the `MissingTenantContext` error whose
message is "company_id is required", and issues no operation at all on
the backend connection (trace empty), in particular not the data
operation. -/
theorem c1_missing_tenant_rejected (ctx : Option Context) (client : Client)
    (sql database : String) (h : tenantOf ctx = none) :
    execute_query sql ctx client =
      (.error ⟨.missingTenantContext, "company_id is required"⟩, []) ∧
    list_databases ctx client =
      (.error ⟨.missingTenantContext, "company_id is required"⟩, []) ∧
    list_tables database ctx client =
      (.error ⟨.missingTenantContext, "company_id is required"⟩, []) := by
  refine ⟨?_, ?_, ?_⟩ <;>
    simp [execute_query, list_databases, list_tables, h]

/-- Witness for C1: the metadata-bearing context without a `company_id`
is rejected by all three tools and the backend is never touched. -/
theorem c1_missing_tenant_rejected_witness :
    execute_query "SELECT 1"
        (some { request_context := some { meta := some metaJohnOnly } })
        clientOk =
      (.error ⟨.missingTenantContext, "company_id is required"⟩, []) ∧
    list_databases
        (some { request_context := some { meta := some metaJohnOnly } })
        clientOk =
      (.error ⟨.missingTenantContext, "company_id is required"⟩, []) ∧
    list_tables "default"
        (some { request_context := some { meta := some metaJohnOnly } })
        clientOk =
      (.error ⟨.missingTenantContext, "company_id is required"⟩, []) :=
  c1_missing_tenant_rejected
    (some { request_context := some { meta := some metaJohnOnly } })
    clientOk "SELECT 1" "default" rfl

/-- Claim C2: for every call whose envelope yields the non-empty tenant
identifier `T`, the first operation issued on the backend connection is
exactly the command string "SET role=" followed by `T` verbatim, and
the call issues nothing else except possibly the data operation after
it: the trace of each tool is either the role command alone (when it
raises) or the role command followed by the data operation — so
role-setting strictly precedes the data operation. -/
theorem c2_role_before_data (ctx : Option Context) (client : Client)
    (sql database tenant : String) (h : tenantOf ctx = some tenant) :
    ((execute_query sql ctx client).2 = [.command ("SET role=" ++ tenant)] ∨
     (execute_query sql ctx client).2 =
       [.command ("SET role=" ++ tenant), .query sql]) ∧
    ((list_databases ctx client).2 = [.command ("SET role=" ++ tenant)] ∨
     (list_databases ctx client).2 =
       [.command ("SET role=" ++ tenant), .command "SHOW DATABASES"]) ∧
    ((list_tables database ctx client).2 = [.command ("SET role=" ++ tenant)] ∨
     (list_tables database ctx client).2 =
       [.command ("SET role=" ++ tenant), .query (list_tables_sql database)]) := by
  refine ⟨?_, ?_, ?_⟩
  · rcases hc : client.command ("SET role=" ++ tenant) with e | v
    · left; simp [execute_query, roleCommand, h, hc]
    · rcases hq : client.query sql with e | r
      · right; simp [execute_query, roleCommand, h, hc, hq]
      · right; simp [execute_query, roleCommand, h, hc, hq]
  · rcases hc : client.command ("SET role=" ++ tenant) with e | v
    · left; simp [list_databases, roleCommand, h, hc]
    · right; simp [list_databases, roleCommand, h, hc]
  · rcases hc : client.command ("SET role=" ++ tenant) with e | v
    · left; simp [list_tables, roleCommand, h, hc]
    · rcases hq : client.query (list_tables_sql database) with e | r
      · right; simp [list_tables, roleCommand, h, hc, hq]
      · right; simp [list_tables, roleCommand, h, hc, hq]

/-- Witness for C2: with tenant "acme_corp" and a healthy backend, each
tool's trace starts with the verbatim role command. -/
theorem c2_role_before_data_witness :
    ((execute_query "SELECT 1" (some ctxJohn) clientOk).2 =
       [.command ("SET role=" ++ "acme_corp")] ∨
     (execute_query "SELECT 1" (some ctxJohn) clientOk).2 =
       [.command ("SET role=" ++ "acme_corp"), .query "SELECT 1"]) ∧
    ((list_databases (some ctxJohn) clientOk).2 =
       [.command ("SET role=" ++ "acme_corp")] ∨
     (list_databases (some ctxJohn) clientOk).2 =
       [.command ("SET role=" ++ "acme_corp"), .command "SHOW DATABASES"]) ∧
    ((list_tables "default" (some ctxJohn) clientOk).2 =
       [.command ("SET role=" ++ "acme_corp")] ∨
     (list_tables "default" (some ctxJohn) clientOk).2 =
       [.command ("SET role=" ++ "acme_corp"),
        .query (list_tables_sql "default")]) :=
  c2_role_before_data (some ctxJohn) clientOk "SELECT 1" "default" "acme_corp" rfl

/-- Claim C3: for every call in which the role-setting command raises,
each tool fails with the `TenantScopeFailure` error whose message is
"Failed to set role: " followed by the underlying cause text, and the
trace consists of the single role command — the data operation is never
invoked and the role command is not retried. -/
theorem c3_role_failure_surfaced (ctx : Option Context) (client : Client)
    (sql database tenant cause : String) (h : tenantOf ctx = some tenant)
    (hc : client.command ("SET role=" ++ tenant) = .error cause) :
    execute_query sql ctx client =
      (.error ⟨.tenantScopeFailure, "Failed to set role: " ++ cause⟩,
        [.command ("SET role=" ++ tenant)]) ∧
    list_databases ctx client =
      (.error ⟨.tenantScopeFailure, "Failed to set role: " ++ cause⟩,
        [.command ("SET role=" ++ tenant)]) ∧
    list_tables database ctx client =
      (.error ⟨.tenantScopeFailure, "Failed to set role: " ++ cause⟩,
        [.command ("SET role=" ++ tenant)]) := by
  refine ⟨?_, ?_, ?_⟩ <;>
    simp [execute_query, list_databases, list_tables, roleCommand, h, hc]

/-- Witness for C3: tenant "invalid_role" against a backend whose role
command raises "Role not found". -/
theorem c3_role_failure_surfaced_witness :
    execute_query "SELECT 1" (some ctxInvalid) clientRoleFail =
      (.error ⟨.tenantScopeFailure, "Failed to set role: " ++ "Role not found"⟩,
        [.command ("SET role=" ++ "invalid_role")]) ∧
    list_databases (some ctxInvalid) clientRoleFail =
      (.error ⟨.tenantScopeFailure, "Failed to set role: " ++ "Role not found"⟩,
        [.command ("SET role=" ++ "invalid_role")]) ∧
    list_tables "default" (some ctxInvalid) clientRoleFail =
      (.error ⟨.tenantScopeFailure, "Failed to set role: " ++ "Role not found"⟩,
        [.command ("SET role=" ++ "invalid_role")]) :=
  c3_role_failure_surfaced (some ctxInvalid) clientRoleFail
    "SELECT 1" "default" "invalid_role" "Role not found" rfl rfl

/-- Claim C4: the scenario of the spec and of
`test_execute_query_with_company_id_sets_role`: envelope with
`user_name` "john_doe" and `company_id` "acme_corp", query "SELECT 1",
backend returning column "col1" and row [1] — `execute_query` issues
`SET role=acme_corp` exactly once, then the query, and returns the
normalized result with those columns and rows. -/
theorem c4_scenario_acme_corp :
    execute_query "SELECT 1" (some ctxJohn) clientOk =
      (.ok { columns := ["col1"], rows := [[.int 1]] },
        [.command "SET role=acme_corp", .query "SELECT 1"]) ∧
    (execute_query "SELECT 1" (some ctxJohn) clientOk).2.count
        (.command "SET role=acme_corp") = 1 := by
  exact ⟨rfl, rfl⟩
